import Mathlib

/-
Verification of the JAdES signature-request builder and algorithm dispatcher
(`packages/jades/src/sign.ts`, plus the near-duplicate `Sign` class embedded in
`examples/sd-jwt-vcdm-example/src/app.service.ts`).

The embedding models:
 - protected-header mappings as insertion-ordered association lists with
   JavaScript assignment semantics (`objSet`),
 - JSON serialization mirroring `JSON.stringify` (insertion order, members
   with value `undefined` omitted),
 - base64url (unpadded) and standard base64 encodings,
 - the `Sign` builder state, its fluent setters, `sign`, and `toJSON`,
 - the `JWTSigner` dispatcher; the Node `createSign` primitive is an external
   collaborator and is modelled as a function parameter from the recorded
   primitive-call parameters to raw signature bytes.
-/

deriving instance DecidableEq for Except

/-- Digest pair \x7bdigAlg, digVal\x7d as constructed by `setX5tSo` / `setX5ts`. -/
structure DigestPair where
  digAlg : String
  digVal : String
deriving DecidableEq, Repr

/-- The `SigD` header value: \x7bmId, pars: [string, string], hash\x7d. -/
structure SigDVal where
  mId : String
  pars : String × String
  hash : String
deriving DecidableEq, Repr

/-- Header values: exactly the value shapes the source stores in the
protected header (strings, booleans, integers, the JS `undefined` value,
arrays of strings for `x5c`, digest pairs for `x5t#o` / `x5t#s`, and the
`sigD` descriptor). -/
inductive JSValue where
  | undef
  | bool (b : Bool)
  | num (n : Int)
  | str (s : String)
  | strArr (xs : List String)
  | digestPair (p : DigestPair)
  | digestPairArr (ps : List DigestPair)
  | sigDVal (d : SigDVal)
deriving DecidableEq, Repr

/-- A JavaScript object: insertion-ordered list of key/value members. -/
abbrev JSObject := List (String × JSValue)

/-- Property read `o[k]`: first (unique, in reachable states) member wins. -/
def objLookup : JSObject → String → Option JSValue
  | [], _ => none
  | (k', v) :: rest, k => if k' = k then some v else objLookup rest k

/-- Property assignment `o[k] = v`: overwrites in place keeping the member
position, or appends a new member at the end (JS object semantics). -/
def objSet : JSObject → String → JSValue → JSObject
  | [], k, v => [(k, v)]
  | (k', v') :: rest, k, v =>
    if k' = k then (k, v) :: rest else (k', v') :: objSet rest k v

/-- Keys of an object, in insertion order. -/
def keysOf (o : JSObject) : List String := o.map Prod.fst

/-- Removal of every member with the given key (used only to state theorems
about serialized equivalence; the source never deletes keys). -/
def eraseKey (o : JSObject) (k : String) : JSObject :=
  o.filter (fun p => p.1 != k)

theorem objLookup_objSet_self (o : JSObject) (k : String) (v : JSValue) :
    objLookup (objSet o k v) k = some v := by
  induction o with
  | nil => simp [objSet, objLookup]
  | cons hd tl ih =>
    by_cases h : hd.1 = k
    · simp [objSet, h, objLookup]
    · simp [objSet, h, objLookup, ih]

theorem objLookup_objSet_ne (o : JSObject) (k k' : String) (v : JSValue)
    (h : k ≠ k') : objLookup (objSet o k v) k' = objLookup o k' := by
  induction o with
  | nil => simp [objSet, objLookup, h]
  | cons hd tl ih =>
    by_cases hh : hd.1 = k
    · simp [objSet, hh, objLookup, h]
    · simp only [objSet, if_neg hh]
      by_cases hk : hd.1 = k'
      · simp [objLookup, hk]
      · simp [objLookup, hk, ih]

/-- Consecutive characters starting at a given code point. -/
def charRange (start len : Nat) : List Char :=
  (List.range len).map fun i => Char.ofNat (start + i)

/-- Hex digits used for JSON control-character escapes: 0-9 then a-f. -/
def hexChars : List Char := charRange 48 10 ++ charRange 97 6

def hexDigit (n : Nat) : String := String.mk [hexChars.getD n '0']

/-- JSON.stringify escaping of a single character. -/
def jsonQuoteChar (c : Char) : String :=
  if c = '"' then "\\\""
  else if c = '\\' then "\\\\"
  else if c = '\n' then "\\n"
  else if c = '\r' then "\\r"
  else if c = '\t' then "\\t"
  else if c.toNat = 8 then "\\b"
  else if c.toNat = 12 then "\\f"
  else if c.toNat < 32 then "\\u00" ++ hexDigit (c.toNat / 16) ++ hexDigit (c.toNat % 16)
  else String.mk [c]

/-- JSON string literal for `s` (quotes plus escaping). -/
def jsonQuote (s : String) : String :=
  "\"" ++ String.join (s.data.map jsonQuoteChar) ++ "\""

def jsonDigestPair (p : DigestPair) : String :=
  "\x7b\"digAlg\":" ++ jsonQuote p.digAlg ++ ",\"digVal\":" ++ jsonQuote p.digVal ++ "\x7d"

/-- JSON rendering of a header value. `undef` never reaches this point from
an object member (members with value `undefined` are skipped); JS renders a
bare `undefined` inside an array as `null`. -/
def jsonVal : JSValue → String
  | JSValue.undef => "null"
  | JSValue.bool b => if b then "true" else "false"
  | JSValue.num n => toString n
  | JSValue.str s => jsonQuote s
  | JSValue.strArr xs => "[" ++ String.intercalate "," (xs.map jsonQuote) ++ "]"
  | JSValue.digestPair p => jsonDigestPair p
  | JSValue.digestPairArr ps => "[" ++ String.intercalate "," (ps.map jsonDigestPair) ++ "]"
  | JSValue.sigDVal d =>
    "\x7b\"mId\":" ++ jsonQuote d.mId ++ ",\"pars\":[" ++ jsonQuote d.pars.1 ++ ","
      ++ jsonQuote d.pars.2 ++ "],\"hash\":" ++ jsonQuote d.hash ++ "\x7d"

/-- Rendered `"key":value` members of an object, in insertion order; a member
whose value is `undefined` is omitted, as in `JSON.stringify`. -/
def jsonFieldStrs : JSObject → List String
  | [] => []
  | (_, JSValue.undef) :: rest => jsonFieldStrs rest
  | (k, v) :: rest => (jsonQuote k ++ ":" ++ jsonVal v) :: jsonFieldStrs rest

/-- JSON.stringify of a JS object. -/
def jsonObj (o : JSObject) : String :=
  "\x7b" ++ String.intercalate "," (jsonFieldStrs o) ++ "\x7d"

/-- The base64url alphabet (RFC 4648 §5): A-Z, a-z, 0-9, minus, underscore. -/
def b64UrlAlphabet : List Char :=
  charRange 65 26 ++ charRange 97 26 ++ charRange 48 10 ++ ['-', '_']

def b64UrlChar (n : Nat) : Char := b64UrlAlphabet.getD n 'A'

/-- Unpadded base64url encoding of a byte list, three bytes at a time. -/
def base64urlChunks : List Nat → List Char
  | [] => []
  | [a] => [b64UrlChar (a / 4), b64UrlChar (a % 4 * 16)]
  | [a, b] =>
    [b64UrlChar (a / 4), b64UrlChar (a % 4 * 16 + b / 16), b64UrlChar (b % 16 * 4)]
  | a :: b :: c :: rest =>
    b64UrlChar (a / 4) :: b64UrlChar (a % 4 * 16 + b / 16)
      :: b64UrlChar (b % 16 * 4 + c / 64) :: b64UrlChar (c % 64)
      :: base64urlChunks rest

def base64urlEncodeBytes (bs : List Nat) : String := String.mk (base64urlChunks bs)

/-- UTF-8 encoding of one character. -/
def utf8Char (c : Char) : List Nat :=
  let n := c.toNat
  if n < 128 then [n]
  else if n < 2048 then [192 + n / 64, 128 + n % 64]
  else if n < 65536 then [224 + n / 4096, 128 + n / 64 % 64, 128 + n % 64]
  else [240 + n / 262144, 128 + n / 4096 % 64, 128 + n / 64 % 64, 128 + n % 64]

def utf8Bytes (s : String) : List Nat :=
  s.data.foldr (fun c acc => utf8Char c ++ acc) []

/-- The `base64urlEncode` helper of `@sd-jwt/utils`: unpadded base64url of the
UTF-8 bytes of a string. -/
def base64urlEncode (s : String) : String := base64urlEncodeBytes (utf8Bytes s)

/-- The standard base64 alphabet (with padding), as produced by
`Buffer.toString('base64')` in `setX5c`: A-Z, a-z, 0-9, plus, slash. -/
def b64StdAlphabet : List Char :=
  charRange 65 26 ++ charRange 97 26 ++ charRange 48 10 ++ ['+', '/']

def b64StdChar (n : Nat) : Char := b64StdAlphabet.getD n 'A'

def base64StdChunks : List Nat → List Char
  | [] => []
  | [a] => [b64StdChar (a / 4), b64StdChar (a % 4 * 16), '=', '=']
  | [a, b] =>
    [b64StdChar (a / 4), b64StdChar (a % 4 * 16 + b / 16), b64StdChar (b % 16 * 4), '=']
  | a :: b :: c :: rest =>
    b64StdChar (a / 4) :: b64StdChar (a % 4 * 16 + b / 16)
      :: b64StdChar (b % 16 * 4 + c / 64) :: b64StdChar (c % 64)
      :: base64StdChunks rest

def base64StdEncodeBytes (bs : List Nat) : String := String.mk (base64StdChunks bs)

/-- Parameters of one invocation of the Node `createSign` signing primitive,
as assembled by the `JWTSigner` handlers: the argument given to `createSign`
(digest name, or curve name for EdDSA), the data passed through
`signer.update`, and the options passed to `sign` besides the key. -/
structure PrimitiveCall where
  createSignArg : String
  input : String
  padding : Option Nat
  dsaEncoding : Option String
deriving DecidableEq, Repr

/-- RSA handler options `\x7bhash, padding\x7d` (type from the
`createRSASignature` parameter annotation). -/
structure RSAOptions where
  hash : String
  padding : Nat
deriving DecidableEq, Repr

/-- ECDSA handler options `\x7bhash, namedCurve\x7d`. -/
structure ECDSAOptions where
  hash : String
  namedCurve : String
deriving DecidableEq, Repr

/-- EdDSA handler options `\x7bcurves\x7d`. -/
structure EdDSAOptions where
  curves : List String
deriving DecidableEq, Repr

inductive AlgOptions where
  | rsa (o : RSAOptions)
  | ecdsa (o : ECDSAOptions)
  | eddsa (o : EdDSAOptions)
deriving DecidableEq, Repr

/-- Modelled from the spec: the `ALGORITHMS` catalog is imported from
`./constant`, a file not present under `src/`; its entries are reconstructed
from the spec's AlgorithmCatalog description and dispatch table — the six
RSA-family identifiers with SHA-256/384/512 digests and PKCS1v1.5 (RS*) or
PSS (PS*) padding, the three ECDSA identifiers with digest matched to curve
size, and EdDSA with an Ed25519-style curve list. The exact option values do
not affect the dispatch claims. -/
def ALGORITHMS : String → Option AlgOptions
  | "RS256" => some (AlgOptions.rsa ⟨"sha256", 1⟩)
  | "RS384" => some (AlgOptions.rsa ⟨"sha384", 1⟩)
  | "RS512" => some (AlgOptions.rsa ⟨"sha512", 1⟩)
  | "PS256" => some (AlgOptions.rsa ⟨"sha256", 6⟩)
  | "PS384" => some (AlgOptions.rsa ⟨"sha384", 6⟩)
  | "PS512" => some (AlgOptions.rsa ⟨"sha512", 6⟩)
  | "ES256" => some (AlgOptions.ecdsa ⟨"sha256", "P-256"⟩)
  | "ES384" => some (AlgOptions.ecdsa ⟨"sha384", "P-384"⟩)
  | "ES512" => some (AlgOptions.ecdsa ⟨"sha512", "P-521"⟩)
  | "EdDSA" => some (AlgOptions.eddsa ⟨["ed25519"]⟩)
  | _ => none

/-- The raw signing primitive (Node `crypto.createSign` chain): external
collaborator, modelled as a function from the recorded call parameters to the
raw signature bytes it returns. -/
def SignPrimitive := PrimitiveCall → List Nat

/-- The `createSign`/`update`/`sign` call assembled by `createRSASignature`:
digest from the options, the key plus the catalog padding. -/
def JWTSigner.rsaCall (signingInput : String) (o : RSAOptions) : PrimitiveCall :=
  { createSignArg := o.hash, input := signingInput,
    padding := some o.padding, dsaEncoding := none }

/-- The call assembled by `createECDSASignature`: digest from the options and
`dsaEncoding: 'ieee-p1363'` (fixed-length r‖s output, not ASN.1 DER). -/
def JWTSigner.ecdsaCall (signingInput : String) (o : ECDSAOptions) : PrimitiveCall :=
  { createSignArg := o.hash, input := signingInput,
    padding := none, dsaEncoding := some "ieee-p1363" }

/-- The call assembled by `createEdDSASignature`: `createSign(options.curves[0])`
with no further sign options. -/
def JWTSigner.eddsaCall (signingInput : String) (o : EdDSAOptions) : PrimitiveCall :=
  { createSignArg := o.curves.headD "", input := signingInput,
    padding := none, dsaEncoding := none }

def JWTSigner.createRSASignature (prim : SignPrimitive) (signingInput : String)
    (o : RSAOptions) : String :=
  base64urlEncodeBytes (prim (JWTSigner.rsaCall signingInput o))

def JWTSigner.createECDSASignature (prim : SignPrimitive) (signingInput : String)
    (o : ECDSAOptions) : String :=
  base64urlEncodeBytes (prim (JWTSigner.ecdsaCall signingInput o))

def JWTSigner.createEdDSASignature (prim : SignPrimitive) (signingInput : String)
    (o : EdDSAOptions) : String :=
  base64urlEncodeBytes (prim (JWTSigner.eddsaCall signingInput o))

/-- The `switch (alg)` dispatcher of `JWTSigner.createSignature`: six RSA-family
cases, three ECDSA cases, the EdDSA case, and a default that throws
`Unsupported algorithm`. -/
def JWTSigner.createSignature (prim : SignPrimitive) (alg : String)
    (signingInput : String) : Except String String :=
  if alg = "RS256" ∨ alg = "RS384" ∨ alg = "RS512"
      ∨ alg = "PS256" ∨ alg = "PS384" ∨ alg = "PS512" then
    match ALGORITHMS alg with
    | some (AlgOptions.rsa o) =>
      Except.ok (JWTSigner.createRSASignature prim signingInput o)
    | _ => Except.error ("Unsupported algorithm: " ++ alg)
  else if alg = "ES256" ∨ alg = "ES384" ∨ alg = "ES512" then
    match ALGORITHMS alg with
    | some (AlgOptions.ecdsa o) =>
      Except.ok (JWTSigner.createECDSASignature prim signingInput o)
    | _ => Except.error ("Unsupported algorithm: " ++ alg)
  else if alg = "EdDSA" then
    match ALGORITHMS alg with
    | some (AlgOptions.eddsa o) =>
      Except.ok (JWTSigner.createEdDSASignature prim signingInput o)
    | _ => Except.error ("Unsupported algorithm: " ++ alg)
  else Except.error ("Unsupported algorithm: " ++ alg)

/-- `JWTSigner.sign` simply forwards to `createSignature`. -/
def JWTSigner.sign (prim : SignPrimitive) (alg : String)
    (signingInput : String) : Except String String :=
  JWTSigner.createSignature prim alg signingInput

/-- One signature entry of the General JWS serialization. -/
structure SignatureEntry where
  «protected» : String
  signature : String
  header : Option JSObject
deriving DecidableEq, Repr

/-- The `GeneralJWS` output artifact. -/
structure GeneralJWS where
  payload : JSValue
  signatures : List SignatureEntry
deriving DecidableEq, Repr

/-- An X.509 certificate, reduced to its raw DER bytes (`cert.raw`) — parsing
is an external collaborator. -/
structure Cert where
  raw : List Nat
deriving DecidableEq, Repr

/-- State of a `Sign` instance: the constructor payload, the protected-header
mapping, the disclosure frame, and the stored General JWS artifact. The
fields and setters are written identically in `packages/jades/src/sign.ts`
and in the `Sign` class embedded in `app.service.ts`; `sign` differs between
the two variants and is modelled separately below. -/
structure SignState where
  payload : Option JSValue
  protectedHeader : JSObject
  disclosureFrame : Option JSValue
  serialized : Option GeneralJWS
deriving DecidableEq, Repr

/-- Constructor `new Sign(payload?)`: empty protected header. -/
def Sign.init (payload : Option JSValue) : SignState :=
  { payload := payload, protectedHeader := [], disclosureFrame := none,
    serialized := none }

/-- JavaScript falsiness of a header value (for the `!header.alg` test). -/
def jsFalsy : JSValue → Bool
  | JSValue.undef => true
  | JSValue.bool b => !b
  | JSValue.num n => n == 0
  | JSValue.str s => s == ""
  | _ => false

/-- The guard `!header.alg || header.alg === 'none'` used by both
`setProtectedHeader` and `sign`. -/
def algGuardFails (h : JSObject) : Bool :=
  match objLookup h "alg" with
  | none => true
  | some v => jsFalsy v || v == JSValue.str "none"

/-- JavaScript string coercion of the header values that can occur. -/
def jsToString : JSValue → String
  | JSValue.str s => s
  | JSValue.num n => toString n
  | JSValue.bool b => if b then "true" else "false"
  | JSValue.undef => "undefined"
  | _ => ""

/-- The `alg` value as the string handed to `JWTSigner.sign`. -/
def headerAlgStr (h : JSObject) : String :=
  jsToString ((objLookup h "alg").getD JSValue.undef)

def Sign.setProtectedHeader (st : SignState) (header : JSObject) :
    Except String SignState :=
  if algGuardFails header then
    Except.error "alg must be set and not \"none\""
  else Except.ok { st with protectedHeader := header }

def Sign.setDisclosureFrame (st : SignState) (frame : JSValue) : SignState :=
  { st with disclosureFrame := some frame }

/-- `setB64(true)` assigns the JS `undefined` value to `b64`; `setB64(false)`
assigns `false`. -/
def Sign.setB64 (st : SignState) (b64 : Bool) : SignState :=
  if b64 then
    { st with protectedHeader := objSet st.protectedHeader "b64" JSValue.undef }
  else
    { st with protectedHeader := objSet st.protectedHeader "b64" (JSValue.bool false) }

/-- `setIssuedAt(sec?)`; the `sec` argument is the caller-supplied value, or
the current clock reading `Math.floor(Date.now() / 1000)` (external time
source) when the caller omitted it. -/
def Sign.setIssuedAt (st : SignState) (sec : Int) : SignState :=
  { st with protectedHeader := objSet st.protectedHeader "iat" (JSValue.num sec) }

def Sign.setSignedAt (st : SignState) (sec : Int) : SignState :=
  { st with protectedHeader := objSet st.protectedHeader "signedAt" (JSValue.num sec) }

/-- The reserved HTTP-headers detached mechanism URI of TS 119 182-1 §5.1.10. -/
def httpHeadersMechanismUri : String := "http://uri.etsi.org/19182/HttpHeaders"

/-- `setSigD` stores the descriptor, then forces `b64=false` when `mId` is the
reserved HTTP-headers mechanism URI. -/
def Sign.setSigD (st : SignState) (sigd : SigDVal) : SignState :=
  let st' := { st with
    protectedHeader := objSet st.protectedHeader "sigD" (JSValue.sigDVal sigd) }
  if sigd.mId = httpHeadersMechanismUri then Sign.setB64 st' false else st'

def Sign.setJti (st : SignState) (jti : String) : SignState :=
  { st with protectedHeader := objSet st.protectedHeader "jti" (JSValue.str jti) }

def Sign.setX5u (st : SignState) (uri : String) : SignState :=
  { st with protectedHeader := objSet st.protectedHeader "x5u" (JSValue.str uri) }

def Sign.setX5c (st : SignState) (certs : List Cert) : SignState :=
  let v := JSValue.strArr (certs.map fun c => base64StdEncodeBytes c.raw)
  { st with protectedHeader := objSet st.protectedHeader "x5c" v }

/-- `setX5tS256`; `sha256b64u` models `createHash('sha-256')...digest('base64url')`
(external crypto collaborator). -/
def Sign.setX5tS256 (sha256b64u : List Nat → String) (st : SignState)
    (cert : Cert) : SignState :=
  { st with protectedHeader := objSet st.protectedHeader "x5t#256" (JSValue.str (sha256b64u cert.raw)) }

/-- `setX5tSo`; `sha512b64u` models `createHash('sha-512')...digest('base64url')`. -/
def Sign.setX5tSo (sha512b64u : List Nat → String) (st : SignState)
    (cert : Cert) : SignState :=
  { st with protectedHeader := objSet st.protectedHeader "x5t#o" (JSValue.digestPair ⟨"sha-512", sha512b64u cert.raw⟩) }

/-- `setX5ts`: requires at least 2 certificates, then stores one SHA-512
digest pair per certificate, in input order. -/
def Sign.setX5ts (sha512b64u : List Nat → String) (st : SignState)
    (certs : List Cert) : Except String SignState :=
  if certs.length < 2 then
    Except.error "at least 2 certificates are required, use setX5tSo instead"
  else
    let v := JSValue.digestPairArr (certs.map fun c => ⟨"sha-512", sha512b64u c.raw⟩)
    Except.ok { st with protectedHeader := objSet st.protectedHeader "x5t#s" v }

def Sign.setCty (st : SignState) (cty : String) : SignState :=
  { st with protectedHeader := objSet st.protectedHeader "cty" (JSValue.str cty) }

def Sign.setKid (st : SignState) (kid : String) : SignState :=
  { st with protectedHeader := objSet st.protectedHeader "kid" (JSValue.str kid) }

/-- `toJSON` (identical in both variants): throws `Not signed yet` while the
artifact is unpopulated. `toJSON` reads the state and does not modify it. -/
def Sign.toJSON (st : SignState) : Except String GeneralJWS :=
  match st.serialized with
  | none => Except.error "Not signed yet"
  | some s => Except.ok s

/-- `Sign.sign` of `packages/jades/src/sign.ts`: checks the algorithm guard;
the `serialized !== undefined` branch is an empty TODO block; in detached mode
it builds the signing input, calls `JWTSigner.sign`, binds the result to an
unused local, and returns `this` unchanged; with a payload present the body is
only a comment. It never assigns `this.serialized` (a `readonly` field). -/
def Sign.sign (prim : SignPrimitive) (st : SignState) : Except String SignState :=
  if algGuardFails st.protectedHeader then
    Except.error "alg must be set and not \"none\""
  else
    match st.payload with
    | none =>
      let encodedProtectedHeader := base64urlEncode (jsonObj st.protectedHeader)
      let encodedPayload := ""
      let protectedData := encodedProtectedHeader ++ "." ++ encodedPayload
      match JWTSigner.sign prim (headerAlgStr st.protectedHeader) protectedData with
      | Except.error e => Except.error e
      | Except.ok _signature => Except.ok st
    | some _ => Except.ok st

/-- Configuration of one signer handed to the external SD-JWT issuance
engine (`sigs` entry: alg, kid, header, signer callback). -/
structure SigSpec where
  alg : String
  kid : String
  header : JSObject
  signer : String → Except String String

/-- The external `SDJwtGeneralJSONInstance.issue` engine, modelled as a
function parameter producing the General JSON artifact. -/
def IssueFn := JSValue → Option JSValue → List SigSpec → GeneralJWS

/-- `appendSignature` of the `app.service.ts` variant: a TODO that returns
`this` unchanged. -/
def ExampleSign.appendSignature (st : SignState) : Except String SignState :=
  Except.ok st

/-- `createSignature` of the `app.service.ts` variant. Detached mode
serializes the protected header spread together with the `kid` argument,
signs `encodedProtectedHeader ++ "." ++ ""`, and stores the General JWS with
empty-string payload; payload mode delegates to the external issuance engine
and stores its artifact. -/
def ExampleSign.createSignature (prim : SignPrimitive) (issue : IssueFn)
    (st : SignState) (kid : String) : Except String SignState :=
  if algGuardFails st.protectedHeader then
    Except.error "alg must be set and not \"none\""
  else
    match st.payload with
    | none =>
      let encodedProtectedHeader :=
        base64urlEncode (jsonObj (objSet st.protectedHeader "kid" (JSValue.str kid)))
      let encodedPayload := ""
      let protectedData := encodedProtectedHeader ++ "." ++ encodedPayload
      match JWTSigner.sign prim (headerAlgStr st.protectedHeader) protectedData with
      | Except.error e => Except.error e
      | Except.ok signature =>
        let g : GeneralJWS :=
          { payload := JSValue.str "",
            signatures := [{ «protected» := encodedProtectedHeader,
                             signature := signature, header := none }] }
        Except.ok { st with serialized := some g }
    | some p =>
      let g := issue p st.disclosureFrame
        [{ alg := headerAlgStr st.protectedHeader, kid := kid,
           header := st.protectedHeader,
           signer := fun data =>
             if (match objLookup st.protectedHeader "alg" with
                 | none => true
                 | some v => jsFalsy v) then
               Except.error "alg must be set when signing"
             else JWTSigner.sign prim (headerAlgStr st.protectedHeader) data }]
      Except.ok { st with serialized := some g }

/-- `sign` of the `app.service.ts` variant: algorithm guard, then append path
when already serialized, else `createSignature`. -/
def ExampleSign.sign (prim : SignPrimitive) (issue : IssueFn) (st : SignState)
    (kid : String) : Except String SignState :=
  if algGuardFails st.protectedHeader then
    Except.error "alg must be set and not \"none\""
  else if st.serialized.isSome then ExampleSign.appendSignature st
  else ExampleSign.createSignature prim issue st kid

/-- One fluent setter invocation on a `Sign` instance (the full setter surface
of `packages/jades/src/sign.ts`). -/
inductive SetterOp where
  | setProtectedHeader (header : JSObject)
  | setDisclosureFrame (frame : JSValue)
  | setB64 (b : Bool)
  | setIssuedAt (sec : Int)
  | setSignedAt (sec : Int)
  | setSigD (sigd : SigDVal)
  | setJti (jti : String)
  | setX5u (uri : String)
  | setX5c (certs : List Cert)
  | setX5tS256 (cert : Cert)
  | setX5tSo (cert : Cert)
  | setX5ts (certs : List Cert)
  | setCty (cty : String)
  | setKid (kid : String)

/-- Interpretation of one setter call; `sha256b64u` / `sha512b64u` are the
external digest collaborators used by the thumbprint setters. -/
def applyOp (sha256b64u sha512b64u : List Nat → String) :
    SetterOp → SignState → Except String SignState
  | SetterOp.setProtectedHeader h, st => Sign.setProtectedHeader st h
  | SetterOp.setDisclosureFrame f, st => Except.ok (Sign.setDisclosureFrame st f)
  | SetterOp.setB64 b, st => Except.ok (Sign.setB64 st b)
  | SetterOp.setIssuedAt s, st => Except.ok (Sign.setIssuedAt st s)
  | SetterOp.setSignedAt s, st => Except.ok (Sign.setSignedAt st s)
  | SetterOp.setSigD d, st => Except.ok (Sign.setSigD st d)
  | SetterOp.setJti j, st => Except.ok (Sign.setJti st j)
  | SetterOp.setX5u u, st => Except.ok (Sign.setX5u st u)
  | SetterOp.setX5c cs, st => Except.ok (Sign.setX5c st cs)
  | SetterOp.setX5tS256 c, st => Except.ok (Sign.setX5tS256 sha256b64u st c)
  | SetterOp.setX5tSo c, st => Except.ok (Sign.setX5tSo sha512b64u st c)
  | SetterOp.setX5ts cs, st => Sign.setX5ts sha512b64u st cs
  | SetterOp.setCty c, st => Except.ok (Sign.setCty st c)
  | SetterOp.setKid k, st => Except.ok (Sign.setKid st k)

/-- A fluent chain of setter calls, applied left to right. -/
def applyOps (sha256b64u sha512b64u : List Nat → String) :
    List SetterOp → SignState → Except String SignState
  | [], st => Except.ok st
  | op :: rest, st =>
    match applyOp sha256b64u sha512b64u op st with
    | Except.error e => Except.error e
    | Except.ok st' => applyOps sha256b64u sha512b64u rest st'

theorem applyOp_serialized (s256 s512 : List Nat → String) (op : SetterOp)
    (st st' : SignState) (h : applyOp s256 s512 op st = Except.ok st') :
    st'.serialized = st.serialized := by
  cases op <;>
    (simp only [applyOp, Sign.setProtectedHeader, Sign.setDisclosureFrame,
      Sign.setB64, Sign.setIssuedAt, Sign.setSignedAt, Sign.setSigD, Sign.setJti,
      Sign.setX5u, Sign.setX5c, Sign.setX5tS256, Sign.setX5tSo, Sign.setX5ts,
      Sign.setCty, Sign.setKid, Except.ok.injEq] at h
     try split at h
     all_goals first
       | (cases h
          rfl)
       | cases h)

theorem applyOps_serialized (s256 s512 : List Nat → String) (ops : List SetterOp)
    (st st' : SignState) (h : applyOps s256 s512 ops st = Except.ok st') :
    st'.serialized = st.serialized := by
  induction ops generalizing st with
  | nil => simp [applyOps] at h; simp [h]
  | cons op rest ih =>
    simp only [applyOps] at h
    cases hop : applyOp s256 s512 op st with
    | error e => rw [hop] at h; cases h
    | ok st1 =>
      rw [hop] at h
      have h1 := applyOp_serialized s256 s512 op st st1 hop
      have h2 := ih st1 h
      rw [h2, h1]

/-- The RSA-family identifiers of the dispatch table. -/
def rsaAlgIds : List String := ["RS256", "RS384", "RS512", "PS256", "PS384", "PS512"]

/-- The ECDSA-family identifiers of the dispatch table. -/
def esAlgIds : List String := ["ES256", "ES384", "ES512"]

theorem ALGORITHMS_isSome_cases (a : String) (h : (ALGORITHMS a).isSome = true) :
    a ∈ rsaAlgIds ∨ a ∈ esAlgIds ∨ a = "EdDSA" := by
  by_contra hc
  push_neg at hc
  obtain ⟨h1, h2, h3⟩ := hc
  simp only [rsaAlgIds, esAlgIds, List.mem_cons, List.mem_singleton, not_or,
    List.not_mem_nil] at h1 h2
  have hnone : ALGORITHMS a = none := by
    unfold ALGORITHMS
    split <;> simp_all
  rw [hnone] at h
  simp at h

theorem JWTSigner_sign_total (prim : SignPrimitive) (a input : String)
    (h : (ALGORITHMS a).isSome = true) :
    ∃ s, JWTSigner.sign prim a input = Except.ok s := by
  rcases ALGORITHMS_isSome_cases a h with hr | he | hd
  · simp only [rsaAlgIds, List.mem_cons, List.mem_singleton, List.not_mem_nil,
      or_false] at hr
    rcases hr with rfl | rfl | rfl | rfl | rfl | rfl <;> exact ⟨_, rfl⟩
  · simp only [esAlgIds, List.mem_cons, List.mem_singleton, List.not_mem_nil,
      or_false] at he
    rcases he with rfl | rfl | rfl <;> exact ⟨_, rfl⟩
  · subst hd; exact ⟨_, rfl⟩

theorem b64UrlChar_mem (n : Nat) : b64UrlChar n ∈ b64UrlAlphabet := by
  unfold b64UrlChar List.getD
  cases hg : b64UrlAlphabet.get? n with
  | none => simp [hg]; decide
  | some c =>
    simp only [hg, Option.getD_some]
    exact List.get?_mem hg

theorem not_eq_mem_b64UrlChar (n : Nat) : ¬('=' = b64UrlChar n) := by
  intro h
  have hm := b64UrlChar_mem n
  rw [← h] at hm
  revert hm
  decide

theorem eq_not_mem_base64urlChunks (bs : List Nat) : '=' ∉ base64urlChunks bs := by
  induction bs using base64urlChunks.induct with
  | case1 => simp [base64urlChunks]
  | case2 a => simp [base64urlChunks, not_eq_mem_b64UrlChar]
  | case3 a b => simp [base64urlChunks, not_eq_mem_b64UrlChar]
  | case4 a b c rest ih =>
    simp [base64urlChunks, not_eq_mem_b64UrlChar, ih]

theorem eq_not_mem_base64urlEncodeBytes (bs : List Nat) :
    '=' ∉ (base64urlEncodeBytes bs).data :=
  eq_not_mem_base64urlChunks bs

/-- C1: after `setSigD` with a descriptor whose `mId` is the reserved
HTTP-headers detached mechanism URI, the protected-header mapping contains
`b64` set to `false`, for every prior header state (including one in which
`setB64(true)` was called earlier); `setSigD` with any other `mId` leaves the
`b64` member unchanged. -/
theorem setSigD_forces_b64_false (st : SignState) (sigd : SigDVal) :
    objLookup ((Sign.setSigD st sigd).protectedHeader) "b64" =
      (if sigd.mId = httpHeadersMechanismUri then some (JSValue.bool false)
       else objLookup st.protectedHeader "b64") := by
  unfold Sign.setSigD Sign.setB64
  by_cases h : sigd.mId = httpHeadersMechanismUri
  · simp [h, objLookup_objSet_self]
  · simp [h, objLookup_objSet_ne _ "sigD" "b64" _ (by decide)]

/-- C5: `setProtectedHeader` with the algorithm unset or equal to `"none"`
fails immediately with the invalid-algorithm error, and `sign` under the same
condition fails with the same error for every signing primitive — i.e. before
any signing is attempted. -/
theorem invalid_algorithm_rejected (st : SignState) (header : JSObject)
    (prim : SignPrimitive) :
    (objLookup header "alg" = some (JSValue.str "none") ∨ objLookup header "alg" = none →
      Sign.setProtectedHeader st header = Except.error "alg must be set and not \"none\"") ∧
    (objLookup st.protectedHeader "alg" = some (JSValue.str "none")
        ∨ objLookup st.protectedHeader "alg" = none →
      Sign.sign prim st = Except.error "alg must be set and not \"none\"") := by
  constructor
  · intro h
    rcases h with h | h <;>
      simp [Sign.setProtectedHeader, algGuardFails, h, jsFalsy]
  · intro h
    rcases h with h | h <;>
      simp [Sign.sign, algGuardFails, h, jsFalsy]

def primW5 : SignPrimitive := fun c => [c.input.length % 256]

theorem invalid_algorithm_rejected_witness :
    Sign.setProtectedHeader (Sign.init none) [("alg", JSValue.str "none")]
        = Except.error "alg must be set and not \"none\"" ∧
    Sign.sign primW5 (Sign.init none) = Except.error "alg must be set and not \"none\"" :=
  ⟨(invalid_algorithm_rejected (Sign.init none) [("alg", JSValue.str "none")] primW5).1
      (Or.inl (by decide)),
   (invalid_algorithm_rejected (Sign.init none) [("alg", JSValue.str "none")] primW5).2
      (Or.inr (by decide))⟩

/-- The `x5t#s` value `setX5ts` constructs: one ordered SHA-512 digest pair
per certificate. -/
def x5tsHeaderValue (sha512b64u : List Nat → String) (certs : List Cert) : JSValue :=
  JSValue.digestPairArr (certs.map fun c => ⟨"sha-512", sha512b64u c.raw⟩)

/-- C6: `setX5ts` with fewer than 2 certificates fails with the
insufficient-certificates error (no state is produced, so the header is
unmodified); with `n ≥ 2` certificates it succeeds and stores under `x5t#s`
exactly `n` digest pairs, the i-th being the SHA-512 digest of the i-th
certificate's raw DER bytes, in input order. -/
theorem setX5ts_certificate_rule (sha512b64u : List Nat → String)
    (st : SignState) (certs : List Cert) :
    (certs.length < 2 →
      Sign.setX5ts sha512b64u st certs
        = Except.error "at least 2 certificates are required, use setX5tSo instead") ∧
    (2 ≤ certs.length →
      Sign.setX5ts sha512b64u st certs = Except.ok { st with protectedHeader := objSet st.protectedHeader "x5t#s" (x5tsHeaderValue sha512b64u certs) } ∧
      objLookup (objSet st.protectedHeader "x5t#s" (x5tsHeaderValue sha512b64u certs)) "x5t#s"
        = some (x5tsHeaderValue sha512b64u certs) ∧
      (certs.map fun c => (⟨"sha-512", sha512b64u c.raw⟩ : DigestPair)).length
        = certs.length) := by
  constructor
  · intro h
    simp [Sign.setX5ts, h]
  · intro h
    have hnot : ¬ certs.length < 2 := by omega
    refine ⟨by simp [Sign.setX5ts, hnot, x5tsHeaderValue], ?_, by simp⟩
    exact objLookup_objSet_self _ _ _

def sha512W6 : List Nat → String := fun bs => toString bs.length

theorem setX5ts_certificate_rule_witness :
    Sign.setX5ts sha512W6 (Sign.init none) [⟨[1]⟩]
        = Except.error "at least 2 certificates are required, use setX5tSo instead" ∧
    Sign.setX5ts sha512W6 (Sign.init none) [⟨[1]⟩, ⟨[2, 3]⟩]
        = Except.ok { Sign.init none with protectedHeader := objSet (Sign.init none).protectedHeader "x5t#s" (x5tsHeaderValue sha512W6 [⟨[1]⟩, ⟨[2, 3]⟩]) } :=
  ⟨(setX5ts_certificate_rule sha512W6 (Sign.init none) [⟨[1]⟩]).1 (by decide),
   ((setX5ts_certificate_rule sha512W6 (Sign.init none) [⟨[1]⟩, ⟨[2, 3]⟩]).2 (by decide)).1⟩

/-- C9: for every setter sequence applied to a fresh instance, the stored
artifact stays unpopulated, so `toJSON` fails with `Not signed yet`; `toJSON`
is a pure read of the state, so the failing call leaves the instance
unchanged. -/
theorem toJSON_before_sign_fails (sha256b64u sha512b64u : List Nat → String)
    (ops : List SetterOp) (payload : Option JSValue) (st : SignState)
    (h : applyOps sha256b64u sha512b64u ops (Sign.init payload) = Except.ok st) :
    st.serialized = none ∧ Sign.toJSON st = Except.error "Not signed yet" := by
  have hs := applyOps_serialized sha256b64u sha512b64u ops _ st h
  simp only [Sign.init] at hs
  exact ⟨hs, by simp [Sign.toJSON, hs]⟩

def hashW9 : List Nat → String := fun _ => ""

theorem toJSON_before_sign_fails_witness :
    (⟨none, [("jti", JSValue.str "a")], none, none⟩ : SignState).serialized = none ∧
    Sign.toJSON (⟨none, [("jti", JSValue.str "a")], none, none⟩ : SignState)
      = Except.error "Not signed yet" :=
  toJSON_before_sign_fails hashW9 hashW9 [SetterOp.setJti "a"] none
    (⟨none, [("jti", JSValue.str "a")], none, none⟩ : SignState) (by decide)

/-- C10: `setProtectedHeader` with a valid header replaces the entire
protected-header mapping with its argument, discarding every previously set
member, for every prior state. -/
theorem setProtectedHeader_replaces_mapping (st : SignState) (header : JSObject)
    (hok : algGuardFails header = false) :
    Sign.setProtectedHeader st header
      = Except.ok { st with protectedHeader := header } := by
  simp [Sign.setProtectedHeader, hok]

def stPrior10 : SignState :=
  Sign.setSigD (Sign.setB64 (Sign.init none) true)
    ⟨httpHeadersMechanismUri, ("p1", "p2"), "S512"⟩

theorem setProtectedHeader_replaces_mapping_witness :
    Sign.setProtectedHeader stPrior10 [("alg", JSValue.str "RS256")]
      = Except.ok { stPrior10 with protectedHeader := [("alg", JSValue.str "RS256")] } :=
  setProtectedHeader_replaces_mapping stPrior10 [("alg", JSValue.str "RS256")] (by decide)

theorem eraseKey_eq_of_not_mem (o : JSObject) (k : String) (h : k ∉ keysOf o) :
    eraseKey o k = o := by
  induction o with
  | nil => rfl
  | cons hd tl ih =>
    simp only [keysOf, List.map_cons, List.mem_cons, not_or] at h
    obtain ⟨h1, h2⟩ := h
    have hne : (hd.1 != k) = true := by
      simp only [bne_iff_ne, ne_eq]
      exact fun e => h1 (e.symm)
    have htl : eraseKey tl k = tl := ih h2
    simp only [eraseKey, List.filter_cons, hne, if_true]
    simp only [eraseKey] at htl
    rw [htl]

theorem jsonFieldStrs_objSet_undef (o : JSObject) (k : String)
    (hnd : (keysOf o).Nodup) :
    jsonFieldStrs (objSet o k JSValue.undef) = jsonFieldStrs (eraseKey o k) := by
  induction o with
  | nil => rfl
  | cons hd tl ih =>
    obtain ⟨k', v'⟩ := hd
    simp only [keysOf, List.map_cons, List.nodup_cons] at hnd
    obtain ⟨hk, hnd'⟩ := hnd
    by_cases h : k' = k
    · subst h
      have hbne : (k' != k') = false := by simp
      have htl : eraseKey tl k' = tl := eraseKey_eq_of_not_mem tl k' hk
      simp only [eraseKey] at htl
      simp only [objSet, if_pos rfl, jsonFieldStrs, eraseKey, List.filter_cons, hbne,
        Bool.false_eq_true, if_false, htl]
    · have hbne : (k' != k) = true := by simp [bne_iff_ne, h]
      have ihx := ih hnd'
      simp only [eraseKey] at ihx
      simp only [objSet, if_neg h, eraseKey, List.filter_cons, hbne, if_true]
      cases v' <;> simp [jsonFieldStrs, ihx]

/-- C4 counterexample: `setB64(true)` executes `this.protectedHeader.b64 =
undefined`, so the `b64` key is still present in the protected-header mapping
afterwards (holding the JS `undefined` value) — refuting the claim that the
key is absent. On a fresh instance the mapping gains the member rather than
staying empty. -/
theorem setB64_true_keeps_key_present :
    objLookup ((Sign.setB64 (Sign.init none) true).protectedHeader) "b64"
        = some JSValue.undef ∧
    keysOf ((Sign.setB64 (Sign.init none) true).protectedHeader) = ["b64"] := by
  constructor
  · decide
  · decide

/-- C4 amended: `setB64(true)` sets the `b64` member to the JS `undefined`
value (never an explicit `true`), which `JSON.stringify` omits — so the
serialized header members equal those of the header with the `b64` key
removed; `setB64(false)` sets the member explicitly to `false`. Holds for
every header state with distinct keys (every state reachable for a JS
object). -/
theorem setB64_undefined_semantics (st : SignState)
    (hnd : (keysOf st.protectedHeader).Nodup) :
    objLookup ((Sign.setB64 st true).protectedHeader) "b64" = some JSValue.undef ∧
    jsonFieldStrs ((Sign.setB64 st true).protectedHeader)
      = jsonFieldStrs (eraseKey st.protectedHeader "b64") ∧
    objLookup ((Sign.setB64 st false).protectedHeader) "b64"
      = some (JSValue.bool false) := by
  refine ⟨?_, ?_, ?_⟩
  · simp only [Sign.setB64, if_pos rfl]
    exact objLookup_objSet_self _ _ _
  · simp only [Sign.setB64, if_pos rfl]
    exact jsonFieldStrs_objSet_undef st.protectedHeader "b64" (by simpa [keysOf] using hnd)
  · simp only [Sign.setB64, Bool.false_eq_true, if_false]
    exact objLookup_objSet_self _ _ _

def stW4 : SignState :=
  ⟨none, [("alg", JSValue.str "ES256"), ("b64", JSValue.bool false)], none, none⟩

theorem setB64_undefined_semantics_witness :
    objLookup ((Sign.setB64 stW4 true).protectedHeader) "b64" = some JSValue.undef ∧
    jsonFieldStrs ((Sign.setB64 stW4 true).protectedHeader)
      = jsonFieldStrs (eraseKey stW4.protectedHeader "b64") ∧
    objLookup ((Sign.setB64 stW4 false).protectedHeader) "b64"
      = some (JSValue.bool false) :=
  setB64_undefined_semantics stW4 (by decide)

/-- C2: evaluation of `Sign.sign` of `packages/jades/src/sign.ts` at a
detached instance with a configured supported algorithm: the call succeeds
but returns the state unchanged — the computed signature is discarded, the
stored artifact stays unpopulated, and `toJSON` afterwards still fails with
`Not signed yet`, for every signing primitive. -/
def c2State : SignState := ⟨none, [("alg", JSValue.str "ES256")], none, none⟩

theorem sign_leaves_artifact_unpopulated (prim : SignPrimitive) :
    Sign.sign prim c2State = Except.ok c2State ∧
    c2State.serialized = none ∧
    Sign.toJSON c2State = Except.error "Not signed yet" :=
  ⟨rfl, rfl, rfl⟩

def c3State : SignState := ⟨none, [("alg", JSValue.str "ES256")], none, none⟩

def primZero3 : SignPrimitive := fun _ => []

def issueEmpty3 : IssueFn := fun _ _ _ => ⟨JSValue.str "", []⟩

/-- C3 counterexample: in the artifact-producing variant
(`createSignature` in `app.service.ts`), detached signing serializes
`\x7b...this.protectedHeader, kid\x7d` — the protected header extended with the
`kid` argument of `sign` — so the protected part of the signing input differs
from `base64url(JSON(protectedHeader))` claimed by the spec: at header
`\x7balg: "ES256"\x7d` and kid `"k1"` the stored protected segment is the
base64url of `\x7b"alg":"ES256","kid":"k1"\x7d`, not of `\x7b"alg":"ES256"\x7d`. -/
theorem detached_signing_input_includes_kid :
    ExampleSign.sign primZero3 issueEmpty3 c3State "k1"
      = Except.ok ⟨none, [("alg", JSValue.str "ES256")], none,
          some ⟨JSValue.str "",
            [⟨base64urlEncode (jsonObj (objSet c3State.protectedHeader "kid" (JSValue.str "k1"))), "", none⟩]⟩⟩ ∧
    base64urlEncode (jsonObj (objSet c3State.protectedHeader "kid" (JSValue.str "k1")))
      ≠ base64urlEncode (jsonObj c3State.protectedHeader) := by
  constructor
  · decide
  · decide

/-- C3 amended: for a `Sign` instance constructed without a payload, not yet
signed, and configured with a supported algorithm, the `app.service.ts`
variant passes to the signature primitive the signing input
`base64url(JSON(protectedHeader extended with the kid argument)) ++ "." ++ ""`
(empty final segment), and stores a `GeneralJWS` whose payload is the empty
string and whose single signature entry carries that protected segment. -/
theorem example_detached_signing_input (prim : SignPrimitive) (issue : IssueFn)
    (st : SignState) (kid a : String)
    (halg : objLookup st.protectedHeader "alg" = some (JSValue.str a))
    (hcat : (ALGORITHMS a).isSome = true)
    (hp : st.payload = none)
    (hs : st.serialized = none) :
    ∃ s, JWTSigner.sign prim a
        (base64urlEncode (jsonObj (objSet st.protectedHeader "kid" (JSValue.str kid))) ++ "." ++ "")
        = Except.ok s ∧
      ExampleSign.sign prim issue st kid
        = Except.ok { st with serialized := some ⟨JSValue.str "", [⟨base64urlEncode (jsonObj (objSet st.protectedHeader "kid" (JSValue.str kid))), s, none⟩]⟩ } := by
  have hne : a ≠ "" ∧ a ≠ "none" := by
    rcases ALGORITHMS_isSome_cases a hcat with hr | he | hd
    · simp only [rsaAlgIds, List.mem_cons, List.mem_singleton, List.not_mem_nil,
        or_false] at hr
      rcases hr with rfl | rfl | rfl | rfl | rfl | rfl <;> exact ⟨by decide, by decide⟩
    · simp only [esAlgIds, List.mem_cons, List.mem_singleton, List.not_mem_nil,
        or_false] at he
      rcases he with rfl | rfl | rfl <;> exact ⟨by decide, by decide⟩
    · subst hd; exact ⟨by decide, by decide⟩
  have hga : algGuardFails st.protectedHeader = false := by
    simp [algGuardFails, halg, jsFalsy, hne.1, hne.2]
  have has : headerAlgStr st.protectedHeader = a := by
    simp [headerAlgStr, halg, jsToString]
  obtain ⟨s, hsig⟩ := JWTSigner_sign_total prim a
    (base64urlEncode (jsonObj (objSet st.protectedHeader "kid" (JSValue.str kid))) ++ "." ++ "")
    hcat
  refine ⟨s, hsig, ?_⟩
  simp only [ExampleSign.sign, ExampleSign.createSignature, hga, Bool.false_eq_true,
    if_false, hs, Option.isSome_none, hp, has, hsig]

def stW3 : SignState := ⟨none, [("alg", JSValue.str "RS256")], none, none⟩

def primW3 : SignPrimitive := fun c => [c.input.length % 256]

def issueW3 : IssueFn := fun _ _ _ => ⟨JSValue.str "", []⟩

theorem example_detached_signing_input_witness :
    ∃ s, JWTSigner.sign primW3 "RS256"
        (base64urlEncode (jsonObj (objSet stW3.protectedHeader "kid" (JSValue.str "kW"))) ++ "." ++ "")
        = Except.ok s ∧
      ExampleSign.sign primW3 issueW3 stW3 "kW"
        = Except.ok { stW3 with serialized := some ⟨JSValue.str "", [⟨base64urlEncode (jsonObj (objSet stW3.protectedHeader "kid" (JSValue.str "kW"))), s, none⟩]⟩ } :=
  example_detached_signing_input primW3 issueW3 stW3 "kW" "RS256" (by decide) (by decide)
    rfl rfl

/-- C7: `createSignature` fails with `Unsupported algorithm` for every
identifier outside the catalog; every identifier in the catalog is dispatched
to exactly one family handler — the six RS*/PS* identifiers to the RSA
handler, the three ES* identifiers to the ECDSA handler, and `EdDSA` to the
EdDSA handler — and those three families exhaust the catalog. -/
theorem createSignature_dispatch (prim : SignPrimitive) (alg input : String) :
    ((ALGORITHMS alg).isSome = false →
      JWTSigner.createSignature prim alg input
        = Except.error ("Unsupported algorithm: " ++ alg)) ∧
    (alg ∈ rsaAlgIds → ∃ o, ALGORITHMS alg = some (AlgOptions.rsa o) ∧
      JWTSigner.createSignature prim alg input
        = Except.ok (JWTSigner.createRSASignature prim input o)) ∧
    (alg ∈ esAlgIds → ∃ o, ALGORITHMS alg = some (AlgOptions.ecdsa o) ∧
      JWTSigner.createSignature prim alg input
        = Except.ok (JWTSigner.createECDSASignature prim input o)) ∧
    (alg = "EdDSA" → ∃ o, ALGORITHMS alg = some (AlgOptions.eddsa o) ∧
      JWTSigner.createSignature prim alg input
        = Except.ok (JWTSigner.createEdDSASignature prim input o)) ∧
    ((ALGORITHMS alg).isSome = true →
      alg ∈ rsaAlgIds ∨ alg ∈ esAlgIds ∨ alg = "EdDSA") := by
  refine ⟨?_, ?_, ?_, ?_, ALGORITHMS_isSome_cases alg⟩
  · intro h
    have h1 : alg ≠ "RS256" := by rintro rfl; simp [ALGORITHMS] at h
    have h2 : alg ≠ "RS384" := by rintro rfl; simp [ALGORITHMS] at h
    have h3 : alg ≠ "RS512" := by rintro rfl; simp [ALGORITHMS] at h
    have h4 : alg ≠ "PS256" := by rintro rfl; simp [ALGORITHMS] at h
    have h5 : alg ≠ "PS384" := by rintro rfl; simp [ALGORITHMS] at h
    have h6 : alg ≠ "PS512" := by rintro rfl; simp [ALGORITHMS] at h
    have h7 : alg ≠ "ES256" := by rintro rfl; simp [ALGORITHMS] at h
    have h8 : alg ≠ "ES384" := by rintro rfl; simp [ALGORITHMS] at h
    have h9 : alg ≠ "ES512" := by rintro rfl; simp [ALGORITHMS] at h
    have h10 : alg ≠ "EdDSA" := by rintro rfl; simp [ALGORITHMS] at h
    simp [JWTSigner.createSignature, h1, h2, h3, h4, h5, h6, h7, h8, h9, h10]
  · intro hm
    simp only [rsaAlgIds, List.mem_cons, List.mem_singleton, List.not_mem_nil,
      or_false] at hm
    rcases hm with rfl | rfl | rfl | rfl | rfl | rfl <;> exact ⟨_, rfl, rfl⟩
  · intro hm
    simp only [esAlgIds, List.mem_cons, List.mem_singleton, List.not_mem_nil,
      or_false] at hm
    rcases hm with rfl | rfl | rfl <;> exact ⟨_, rfl, rfl⟩
  · rintro rfl
    exact ⟨_, rfl, rfl⟩

def primW7 : SignPrimitive := fun c => utf8Bytes c.input

theorem createSignature_dispatch_witness :
    JWTSigner.createSignature primW7 "HS256" "d"
        = Except.error "Unsupported algorithm: HS256" ∧
    (∃ o, ALGORITHMS "ES256" = some (AlgOptions.ecdsa o) ∧
      JWTSigner.createSignature primW7 "ES256" "d"
        = Except.ok (JWTSigner.createECDSASignature primW7 "d" o)) :=
  ⟨(createSignature_dispatch primW7 "HS256" "d").1 (by decide),
   (createSignature_dispatch primW7 "ES256" "d").2.2.1 (by decide)⟩

/-- C8: the ECDSA handler explicitly requests fixed-length IEEE-P1363 r‖s
signature encoding from the primitive (`dsaEncoding: 'ieee-p1363'`, not ASN.1
DER), and the outputs of the ECDSA, RSA, and EdDSA handlers are the raw
signature bytes base64url-encoded without padding (no `=` character ever
appears). -/
theorem ecdsa_p1363_and_unpadded_base64url (prim : SignPrimitive) (input : String)
    (oE : ECDSAOptions) (oR : RSAOptions) (oD : EdDSAOptions) :
    (JWTSigner.ecdsaCall input oE).dsaEncoding = some "ieee-p1363" ∧
    (JWTSigner.ecdsaCall input oE).dsaEncoding ≠ some "der" ∧
    JWTSigner.createECDSASignature prim input oE
      = base64urlEncodeBytes (prim (JWTSigner.ecdsaCall input oE)) ∧
    '=' ∉ (JWTSigner.createECDSASignature prim input oE).data ∧
    '=' ∉ (JWTSigner.createRSASignature prim input oR).data ∧
    '=' ∉ (JWTSigner.createEdDSASignature prim input oD).data := by
  refine ⟨rfl, fun h => absurd (Option.some.inj h) (by decide), rfl, ?_, ?_, ?_⟩ <;>
    exact eq_not_mem_base64urlEncodeBytes _

def stW1 : SignState := Sign.setB64 (Sign.init none) true

theorem setSigD_forces_b64_false_witness :
    objLookup ((Sign.setSigD stW1 ⟨httpHeadersMechanismUri, ("p1", "p2"), "S512"⟩).protectedHeader) "b64"
      = (if (⟨httpHeadersMechanismUri, ("p1", "p2"), "S512"⟩ : SigDVal).mId = httpHeadersMechanismUri
         then some (JSValue.bool false) else objLookup stW1.protectedHeader "b64") :=
  setSigD_forces_b64_false stW1 ⟨httpHeadersMechanismUri, ("p1", "p2"), "S512"⟩

def primW2 : SignPrimitive := fun c => utf8Bytes c.createSignArg

theorem sign_leaves_artifact_unpopulated_witness :
    Sign.sign primW2 c2State = Except.ok c2State ∧
    c2State.serialized = none ∧
    Sign.toJSON c2State = Except.error "Not signed yet" :=
  sign_leaves_artifact_unpopulated primW2

def primW8 : SignPrimitive := fun _ => [0, 255, 7]

theorem ecdsa_p1363_and_unpadded_base64url_witness :
    (JWTSigner.ecdsaCall "d" ⟨"sha256", "P-256"⟩).dsaEncoding = some "ieee-p1363" ∧
    (JWTSigner.ecdsaCall "d" ⟨"sha256", "P-256"⟩).dsaEncoding ≠ some "der" ∧
    JWTSigner.createECDSASignature primW8 "d" ⟨"sha256", "P-256"⟩
      = base64urlEncodeBytes (primW8 (JWTSigner.ecdsaCall "d" ⟨"sha256", "P-256"⟩)) ∧
    '=' ∉ (JWTSigner.createECDSASignature primW8 "d" ⟨"sha256", "P-256"⟩).data ∧
    '=' ∉ (JWTSigner.createRSASignature primW8 "d" ⟨"sha256", 1⟩).data ∧
    '=' ∉ (JWTSigner.createEdDSASignature primW8 "d" ⟨["ed25519"]⟩).data :=
  ecdsa_p1363_and_unpadded_base64url primW8 "d" ⟨"sha256", "P-256"⟩ ⟨"sha256", 1⟩ ⟨["ed25519"]⟩
